import Mathlib

/-!
Shallow embedding of the volleybot roster bot (src/bot/sheets.py,
src/bot/discord_bot.py, src/bot/utils.py).

External effects (the Discord transport, the wall clock, the random number
generator, the state files) are made explicit: the transport's responses are
an `Env` value, the persisted files are a `RosterState` value threaded through
the functions, random draws go through a caller-supplied `randint` oracle and
the clock through explicit `weekday`/`hour` arguments.
-/

set_option maxRecDepth 4096

/-- One row of the Google sheet, as consumed by `get_confirmed_and_waitlist`:
the `Name:` column and the `PARTICIPATION Date (NOT birthday!)` column
(already stringified, as the Python code does with `str(...)`). -/
structure SheetRow where
  name : String
  participationDate : String
deriving DecidableEq, Repr

/-- `sheets.get_confirmed_and_waitlist`: filter the sheet rows to those whose
participation-date cell starts with the formatted target-Sunday date, keep the
names in sheet order, and split at index 21 (`participants[:21]` /
`participants[21:]`). -/
def get_confirmed_and_waitlist (sheetData : List SheetRow) (formattedDate : String) :
    List String × List String :=
  let participants :=
    (sheetData.filter (fun row => row.participationDate.startsWith formattedDate)).map
      (fun row => row.name)
  (participants.take 21, participants.drop 21)

/-- The persisted reconciler state: `message_id.txt` (`none` when the file is
missing or unreadable) and `last_roster.txt` (`""` when missing). -/
structure RosterState where
  msgId : Option Nat
  cachedText : String
deriving DecidableEq, Repr

/-- Outcome of the transport's `edit` call on the partial message:
success, an `HTTPException` with the given status code (404 = NotFound,
429 = rate limited, 5xx = transient HTTP failure), or a non-HTTP exception. -/
inductive EditRes where
  | ok
  | httpE (status : Nat)
  | exc
deriving DecidableEq, Repr

/-- Outcome of the transport's `send` call: success returning the new
message id, an `HTTPException` with the given status, or a non-HTTP
exception. -/
inductive SendRes where
  | ok (id : Nat)
  | httpE (status : Nat)
  | exc
deriving DecidableEq, Repr

/-- The transport environment one call to `update_roster_message` runs
against: whether `client.get_channel` finds the roster channel, and what the
edit / send calls would return. -/
structure Env where
  channelFound : Bool
  editRes : EditRes
  sendRes : SendRes
deriving DecidableEq, Repr

/-- An external mutating transport call attempted during a cycle. -/
inductive Call where
  | editMsg (id : Nat)
  | sendMsg
deriving DecidableEq, Repr

/-- Result of one `update_roster_message` cycle: the returned status string,
the persisted state after the call, and the mutating transport calls
attempted, in order. -/
structure UpdateResult where
  status : String
  state : RosterState
  calls : List Call
deriving DecidableEq, Repr

/-- `discord_bot.update_roster_message`, lines 76-90: build `new_content`. -/
def renderRoster (cancelled : Bool) (reason dateFull dateShort : String)
    (confirmed waitlist : List String) : String :=
  let c0 : String :=
    if cancelled then
      "🚫 Sunday volleyball is CANCELLED - " ++ dateFull ++ "\nReason: " ++ reason ++ "\n\n"
    else ""
  let c1 := c0 ++ "📋 **THM Volleyball Roster - Sunday, " ++ dateShort ++
    "**\n\n✅ Confirmed to Play:"
  let c2 := c1 ++
    (if confirmed.isEmpty then "\nNone"
     else "\n" ++ String.intercalate "\n"
       (confirmed.enum.map (fun p => toString (p.1 + 1) ++ ". " ++ p.2)))
  let c3 := c2 ++ "\n\n⏳ Waitlist:"
  let c4 := c3 ++
    (if waitlist.isEmpty then "\nNone"
     else "\n" ++ String.intercalate "\n" (waitlist.map (fun n => "- " ++ n)))
  c4 ++ "\n\n📍 KMCD Gym | 2-5 PM  \n🚪 Enter through the double doors (north side)  \n" ++
    "📝 Please arrive on time — late spots may be given to waitlisters."

/-- The send block of `update_roster_message` (lines 119-130) plus the final
cache write (lines 137-139): send succeeds → `save_message_id(msg.id)`, then
`save_cached_roster_text(new_content)`, status `"edited"`; `HTTPException`
with status 429 → `"rate_limited"`; other `HTTPException` → `"error"`; a
non-HTTP exception is caught by the outer handler → `"error"`.  No state is
written on any failure. -/
def trySend (st : RosterState) (newContent : String) (callsSoFar : List Call) (env : Env) :
    UpdateResult :=
  match env.sendRes with
  | SendRes.ok newId =>
      ⟨"edited", ⟨some newId, newContent⟩, callsSoFar ++ [Call.sendMsg]⟩
  | SendRes.httpE status =>
      if status = 429 then ⟨"rate_limited", st, callsSoFar ++ [Call.sendMsg]⟩
      else ⟨"error", st, callsSoFar ++ [Call.sendMsg]⟩
  | SendRes.exc => ⟨"error", st, callsSoFar ++ [Call.sendMsg]⟩

/-- `discord_bot.update_roster_message` (lines 72-141).  Renders the roster,
returns `"nochange"` untouched when the cached text equals the fresh render,
`"error"` when the channel is not found; otherwise, with a stored message id,
attempts the edit (success → cache write, `"edited"`; HTTP 429 →
`"rate_limited"` with nothing persisted; any other `HTTPException` → fall
through to `trySend`; a non-HTTP exception → outer handler, `"error"`), and
with no stored id goes straight to `trySend`. -/
def update_roster_message (st : RosterState) (env : Env) (cancelled : Bool)
    (reason dateFull dateShort : String) (confirmed waitlist : List String) :
    UpdateResult :=
  let newContent := renderRoster cancelled reason dateFull dateShort confirmed waitlist
  if st.cachedText = newContent then ⟨"nochange", st, []⟩
  else if env.channelFound = false then ⟨"error", st, []⟩
  else
    match st.msgId with
    | some mid =>
        match env.editRes with
        | EditRes.ok => ⟨"edited", ⟨some mid, newContent⟩, [Call.editMsg mid]⟩
        | EditRes.httpE status =>
            if status = 429 then ⟨"rate_limited", st, [Call.editMsg mid]⟩
            else trySend st newContent [Call.editMsg mid] env
        | EditRes.exc => ⟨"error", st, [Call.editMsg mid]⟩
    | none => trySend st newContent [] env

/-- Claim C6: `get_confirmed_and_waitlist` partitions the participant list at
capacity 21: confirmed has exactly `min N 21` entries, the waitlist is
`participants.drop 21`, and confirmed ++ waitlist reconstructs the original
list in order. -/
theorem get_confirmed_and_waitlist_partition (sheetData : List SheetRow)
    (formattedDate : String) :
    (get_confirmed_and_waitlist sheetData formattedDate).1.length =
      min ((sheetData.filter
        (fun row => row.participationDate.startsWith formattedDate)).map
          (fun row => row.name)).length 21 ∧
    (get_confirmed_and_waitlist sheetData formattedDate).2 =
      ((sheetData.filter
        (fun row => row.participationDate.startsWith formattedDate)).map
          (fun row => row.name)).drop 21 ∧
    (get_confirmed_and_waitlist sheetData formattedDate).1 ++
      (get_confirmed_and_waitlist sheetData formattedDate).2 =
      (sheetData.filter
        (fun row => row.participationDate.startsWith formattedDate)).map
          (fun row => row.name) := by
  refine ⟨?_, rfl, ?_⟩
  · simp [get_confirmed_and_waitlist, List.length_take, Nat.min_comm]
  · simp [get_confirmed_and_waitlist]

/-- Helper: when the cached text equals the fresh render, the call is a
no-op returning `"nochange"` (lines 92-96). -/
theorem update_nochange (st : RosterState) (env : Env) (cancelled : Bool)
    (reason dateFull dateShort : String) (confirmed waitlist : List String)
    (h : st.cachedText = renderRoster cancelled reason dateFull dateShort confirmed waitlist) :
    update_roster_message st env cancelled reason dateFull dateShort confirmed waitlist =
      ⟨"nochange", st, []⟩ := by
  simp [update_roster_message, h]

/-- Helper: against a fully-successful transport, the call leaves the cached
text equal to the fresh render. -/
theorem update_success_cache (st : RosterState) (env : Env) (cancelled : Bool)
    (reason dateFull dateShort : String) (confirmed waitlist : List String) (n : Nat)
    (hc : env.channelFound = true) (he : env.editRes = EditRes.ok)
    (hs : env.sendRes = SendRes.ok n) :
    (update_roster_message st env cancelled reason dateFull dateShort
        confirmed waitlist).state.cachedText =
      renderRoster cancelled reason dateFull dateShort confirmed waitlist := by
  by_cases hcc : st.cachedText = renderRoster cancelled reason dateFull dateShort confirmed waitlist
  · rw [update_nochange st env cancelled reason dateFull dateShort confirmed waitlist hcc]
    exact hcc
  · cases hm : st.msgId with
    | none => simp [update_roster_message, trySend, hcc, hc, hm, hs]
    | some mid => simp [update_roster_message, hcc, hc, hm, he]

/-- Helper: in every cycle, either the persisted state is untouched or the
cycle reports `"edited"`. -/
theorem update_state_or_edited (st : RosterState) (env : Env) (cancelled : Bool)
    (reason dateFull dateShort : String) (confirmed waitlist : List String) :
    (update_roster_message st env cancelled reason dateFull dateShort confirmed waitlist).state =
      st ∨
    (update_roster_message st env cancelled reason dateFull dateShort confirmed waitlist).status =
      "edited" := by
  by_cases hcc : st.cachedText = renderRoster cancelled reason dateFull dateShort confirmed waitlist
  · left
    rw [update_nochange st env cancelled reason dateFull dateShort confirmed waitlist hcc]
  · unfold update_roster_message trySend
    rw [if_neg hcc]
    repeat' split
    all_goals simp

/-- Claim C1: if the edit-by-id succeeds (a stored id exists and the edit
call returns ok), no create (`send`) call is made in that cycle, so a
successful edit and a creation never both occur. -/
theorem update_edit_success_no_send (st : RosterState) (env : Env) (cancelled : Bool)
    (reason dateFull dateShort : String) (confirmed waitlist : List String) (mid : Nat)
    (hm : st.msgId = some mid) (he : env.editRes = EditRes.ok) :
    Call.sendMsg ∉
      (update_roster_message st env cancelled reason dateFull dateShort
        confirmed waitlist).calls := by
  by_cases hcc : st.cachedText = renderRoster cancelled reason dateFull dateShort confirmed waitlist
  · rw [update_nochange st env cancelled reason dateFull dateShort confirmed waitlist hcc]
    simp
  · cases hc : env.channelFound
    · simp [update_roster_message, hcc, hc]
    · simp [update_roster_message, hcc, hc, hm, he]

/-- Witness for C1 at a concrete input. -/
theorem update_edit_success_no_send_witness :
    Call.sendMsg ∉
      (update_roster_message ⟨some 1, ""⟩ ⟨true, EditRes.ok, SendRes.ok 2⟩ false "" "" ""
        [] []).calls :=
  update_edit_success_no_send ⟨some 1, ""⟩ ⟨true, EditRes.ok, SendRes.ok 2⟩ false "" "" ""
    [] [] 1 rfl rfl

/-- Claim C2: when the cached text is byte-identical to the fresh render the
cycle returns `"nochange"`, makes no transport call and writes no state; and
after a cycle against a successful transport, a second cycle with the same
inputs is such a no-op. -/
theorem update_unchanged_noop (st : RosterState) (env env1 env2 : Env) (cancelled : Bool)
    (reason dateFull dateShort : String) (confirmed waitlist : List String) (n : Nat)
    (hc : env1.channelFound = true) (he : env1.editRes = EditRes.ok)
    (hs : env1.sendRes = SendRes.ok n) :
    (st.cachedText = renderRoster cancelled reason dateFull dateShort confirmed waitlist →
      update_roster_message st env cancelled reason dateFull dateShort confirmed waitlist =
        ⟨"nochange", st, []⟩) ∧
    update_roster_message
        (update_roster_message st env1 cancelled reason dateFull dateShort
          confirmed waitlist).state
        env2 cancelled reason dateFull dateShort confirmed waitlist =
      ⟨"nochange",
        (update_roster_message st env1 cancelled reason dateFull dateShort
          confirmed waitlist).state, []⟩ :=
  ⟨fun h => update_nochange st env cancelled reason dateFull dateShort confirmed waitlist h,
   update_nochange _ env2 cancelled reason dateFull dateShort confirmed waitlist
     (update_success_cache st env1 cancelled reason dateFull dateShort confirmed waitlist n
       hc he hs)⟩

/-- Witness for C2 at a concrete input. -/
theorem update_unchanged_noop_witness :
    update_roster_message
        (update_roster_message ⟨some 1, ""⟩ ⟨true, EditRes.ok, SendRes.ok 2⟩ false "" "" ""
          [] []).state
        ⟨true, EditRes.ok, SendRes.ok 2⟩ false "" "" "" [] [] =
      ⟨"nochange",
        (update_roster_message ⟨some 1, ""⟩ ⟨true, EditRes.ok, SendRes.ok 2⟩ false "" "" ""
          [] []).state, []⟩ :=
  (update_unchanged_noop ⟨some 1, ""⟩ ⟨true, EditRes.ok, SendRes.ok 2⟩
    ⟨true, EditRes.ok, SendRes.ok 2⟩ ⟨true, EditRes.ok, SendRes.ok 2⟩ false "" "" "" [] [] 2
    rfl rfl rfl).2

/-- Claim C3: a `"rate_limited"` outcome persists nothing — the stored
message id and cached text are unchanged — and when the rate limit hit the
edit attempt, the cycle stopped there (no send call follows). -/
theorem update_rate_limited_no_persist (st : RosterState) (env : Env) (cancelled : Bool)
    (reason dateFull dateShort : String) (confirmed waitlist : List String)
    (h : (update_roster_message st env cancelled reason dateFull dateShort
      confirmed waitlist).status = "rate_limited") :
    (update_roster_message st env cancelled reason dateFull dateShort
      confirmed waitlist).state = st ∧
    (∀ mid, st.msgId = some mid → env.editRes = EditRes.httpE 429 →
      (update_roster_message st env cancelled reason dateFull dateShort
        confirmed waitlist).calls = [Call.editMsg mid]) := by
  constructor
  · rcases update_state_or_edited st env cancelled reason dateFull dateShort confirmed waitlist
      with h1 | h1
    · exact h1
    · exact absurd (h.symm.trans h1) (by decide)
  · intro mid hm he
    by_cases hcc :
        st.cachedText = renderRoster cancelled reason dateFull dateShort confirmed waitlist
    · rw [update_nochange st env cancelled reason dateFull dateShort confirmed waitlist hcc] at h
      simp at h
    · cases hc : env.channelFound
      · simp [update_roster_message, hcc, hc] at h
      · simp [update_roster_message, hcc, hc, hm, he]

/-- Witness for C3 at a concrete input. -/
theorem update_rate_limited_no_persist_witness :
    (update_roster_message ⟨some 1, ""⟩ ⟨true, EditRes.httpE 429, SendRes.ok 2⟩ false "" "" ""
      [] []).state = ⟨some 1, ""⟩ ∧
    (update_roster_message ⟨some 1, ""⟩ ⟨true, EditRes.httpE 429, SendRes.ok 2⟩ false "" "" ""
      [] []).calls = [Call.editMsg 1] :=
  ⟨(update_rate_limited_no_persist ⟨some 1, ""⟩ ⟨true, EditRes.httpE 429, SendRes.ok 2⟩
      false "" "" "" [] [] (by decide)).1,
   (update_rate_limited_no_persist ⟨some 1, ""⟩ ⟨true, EditRes.httpE 429, SendRes.ok 2⟩
      false "" "" "" [] [] (by decide)).2 1 rfl rfl⟩

/-- Counterexample to claim C4 as stated: an edit attempt failing with a
transient HTTP transport error (an `HTTPException` with status 500 — neither
a rate limit nor NotFound) does not classify the cycle as `"error"`; the code
falls through and creates a new message in the same cycle. -/
theorem update_transient_http_edit_creates :
    (update_roster_message ⟨some 1, ""⟩ ⟨true, EditRes.httpE 500, SendRes.ok 2⟩ false "" "" ""
      [] []).status = "edited" ∧
    ¬ (update_roster_message ⟨some 1, ""⟩ ⟨true, EditRes.httpE 500, SendRes.ok 2⟩ false "" "" ""
      [] []).status = "error" ∧
    Call.sendMsg ∈
      (update_roster_message ⟨some 1, ""⟩ ⟨true, EditRes.httpE 500, SendRes.ok 2⟩ false "" "" ""
        [] []).calls := by
  refine ⟨rfl, by decide, by decide⟩

/-- Claim C4 amended: only an edit attempt failing with a *non-HTTP*
transient exception is classified `"error"` with the persisted state left
unchanged and no message created in that cycle; a transient `HTTPException`
(status other than 429) instead falls through to creation. -/
theorem update_edit_exc_error (st : RosterState) (env : Env) (cancelled : Bool)
    (reason dateFull dateShort : String) (confirmed waitlist : List String) (mid : Nat)
    (hm : st.msgId = some mid) (he : env.editRes = EditRes.exc)
    (hcc : ¬ st.cachedText = renderRoster cancelled reason dateFull dateShort confirmed waitlist)
    (hc : env.channelFound = true) :
    update_roster_message st env cancelled reason dateFull dateShort confirmed waitlist =
      ⟨"error", st, [Call.editMsg mid]⟩ := by
  simp [update_roster_message, hcc, hc, hm, he]

/-- Witness for the amended C4 at a concrete input. -/
theorem update_edit_exc_error_witness :
    update_roster_message ⟨some 1, ""⟩ ⟨true, EditRes.exc, SendRes.ok 2⟩ false "" "" "" [] [] =
      ⟨"error", ⟨some 1, ""⟩, [Call.editMsg 1]⟩ :=
  update_edit_exc_error ⟨some 1, ""⟩ ⟨true, EditRes.exc, SendRes.ok 2⟩ false "" "" "" [] [] 1
    rfl rfl (by decide) rfl

/-- Claim C5: when the edit attempt fails with NotFound (HTTP 404), the same
cycle's next mutation is a create, and afterwards the persisted id is the
newly created message's id and the cached text is the new content. -/
theorem update_notfound_recreates (st : RosterState) (env : Env) (cancelled : Bool)
    (reason dateFull dateShort : String) (confirmed waitlist : List String) (mid newId : Nat)
    (hm : st.msgId = some mid) (he : env.editRes = EditRes.httpE 404)
    (hs : env.sendRes = SendRes.ok newId)
    (hcc : ¬ st.cachedText = renderRoster cancelled reason dateFull dateShort confirmed waitlist)
    (hc : env.channelFound = true) :
    update_roster_message st env cancelled reason dateFull dateShort confirmed waitlist =
      ⟨"edited",
        ⟨some newId, renderRoster cancelled reason dateFull dateShort confirmed waitlist⟩,
        [Call.editMsg mid, Call.sendMsg]⟩ := by
  simp [update_roster_message, trySend, hcc, hc, hm, he, hs]

/-- Witness for C5 at a concrete input. -/
theorem update_notfound_recreates_witness :
    update_roster_message ⟨some 1, ""⟩ ⟨true, EditRes.httpE 404, SendRes.ok 2⟩ false "" "" ""
      [] [] =
      ⟨"edited", ⟨some 2, renderRoster false "" "" "" [] []⟩,
        [Call.editMsg 1, Call.sendMsg]⟩ :=
  update_notfound_recreates ⟨some 1, ""⟩ ⟨true, EditRes.httpE 404, SendRes.ok 2⟩ false "" "" ""
    [] [] 1 2 rfl rfl rfl (by decide) rfl

/-- The `active` test of `utils.get_roster_sleep_seconds` (lines 119-124):
Friday (weekday 4) from hour 12, all Saturday (5), Sunday (6) before hour 14,
computed from the Eastern-time `now`. -/
def activeHours (weekday hour : Nat) : Bool :=
  (weekday == 4 && decide (12 ≤ hour)) || weekday == 5 || (weekday == 6 && hour < 14)

/-- `base_minutes = 60 * (2 ** (consecutive_429 - 1))` (line 108).  Python
computes this with integer arithmetic for `consecutive_429 >= 1` and with an
exact dyadic float (`2 ** -1 == 0.5`) for `consecutive_429 == 0`, so a
rational with an integer exponent models it exactly. -/
def base_minutes (consecutive_429 : Nat) : ℚ :=
  60 * (2 : ℚ) ^ ((consecutive_429 : ℤ) - 1)

/-- `utils.get_roster_sleep_seconds` (lines 92-134).  `randint` is the
`random.randint` oracle (inclusive bounds); `weekday`/`hour` are the fields
the code reads from `datetime.datetime.now(EASTERN)`.  `int(x)` on the
positive `base_minutes * 1.5` truncates, i.e. floors. -/
def get_roster_sleep_seconds (randint : ℤ → ℤ → ℤ) (status : String)
    (consecutive_429 : Nat) (weekday hour : Nat) : ℤ :=
  if status = "rate_limited" then
    let min_sleep : ℚ := base_minutes consecutive_429
    let max_sleep : ℤ := ⌊base_minutes consecutive_429 * (3 / 2 : ℚ)⌋
    randint ⌊min_sleep * 60⌋ (max_sleep * 60)
  else if status = "error" then
    randint (45 * 60) (60 * 60)
  else
    let base_sleep : ℤ :=
      if activeHours weekday hour then randint (19 * 60) (21 * 60)
      else randint (115 * 60) (125 * 60)
    if status = "nochange" ∧ activeHours weekday hour = true then
      base_sleep + randint (10 * 60) (20 * 60)
    else base_sleep

/-- The `random.randint` contract: with `a ≤ b` the draw lies in `[a, b]`. -/
def RandintSpec (randint : ℤ → ℤ → ℤ) : Prop :=
  ∀ a b : ℤ, a ≤ b → a ≤ randint a b ∧ randint a b ≤ b

/-- Helper: the lower randint argument of the rate-limited branch. -/
theorem base_minutes_mul_sixty (n : Nat) :
    ⌊base_minutes n * 60⌋ = if n = 0 then (1800 : ℤ) else 3600 * 2 ^ (n - 1) := by
  cases n with
  | zero =>
      have h : base_minutes 0 * 60 = ((1800 : ℤ) : ℚ) := by
        simp [base_minutes]
        norm_num
      rw [h, Int.floor_intCast]
      rfl
  | succ m =>
      have hcast : ((m + 1 : ℕ) : ℤ) - 1 = (m : ℤ) := by push_cast; ring
      have h : base_minutes (m + 1) * 60 = ((3600 * 2 ^ m : ℤ) : ℚ) := by
        rw [base_minutes, hcast, zpow_natCast]
        push_cast
        ring
      rw [h, Int.floor_intCast]
      simp

/-- Helper: the `int(base_minutes * 1.5)` value of the rate-limited branch. -/
theorem base_minutes_mul_three_halves (n : Nat) :
    ⌊base_minutes n * (3 / 2 : ℚ)⌋ = if n = 0 then (45 : ℤ) else 90 * 2 ^ (n - 1) := by
  cases n with
  | zero =>
      have h : base_minutes 0 * (3 / 2 : ℚ) = ((45 : ℤ) : ℚ) := by
        simp [base_minutes]
        norm_num
      rw [h, Int.floor_intCast]
      rfl
  | succ m =>
      have hcast : ((m + 1 : ℕ) : ℤ) - 1 = (m : ℤ) := by push_cast; ring
      have h : base_minutes (m + 1) * (3 / 2 : ℚ) = ((90 * 2 ^ m : ℤ) : ℚ) := by
        rw [base_minutes, hcast, zpow_natCast]
        push_cast
        ring
      rw [h, Int.floor_intCast]
      simp

/-- Helper: the rate-limited branch draws from the band
`[3600 * 2^(n-1), 5400 * 2^(n-1)]` seconds (`[1800, 2700]` when `n = 0`). -/
theorem rate_limited_bounds (randint : ℤ → ℤ → ℤ) (hr : RandintSpec randint)
    (n weekday hour : Nat) :
    (if n = 0 then (1800 : ℤ) else 3600 * 2 ^ (n - 1)) ≤
      get_roster_sleep_seconds randint "rate_limited" n weekday hour ∧
    get_roster_sleep_seconds randint "rate_limited" n weekday hour ≤
      (if n = 0 then (2700 : ℤ) else 5400 * 2 ^ (n - 1)) := by
  have hval : get_roster_sleep_seconds randint "rate_limited" n weekday hour =
      randint ⌊base_minutes n * 60⌋ (⌊base_minutes n * (3 / 2 : ℚ)⌋ * 60) := by
    simp [get_roster_sleep_seconds]
  rw [hval, base_minutes_mul_sixty n, base_minutes_mul_three_halves n]
  cases n with
  | zero =>
      simpa using hr 1800 (45 * 60) (by norm_num)
  | succ m =>
      have hpow : (0 : ℤ) < 2 ^ m := pow_pos (by norm_num) m
      have hle : (3600 : ℤ) * 2 ^ m ≤ 90 * 2 ^ m * 60 := by nlinarith
      have := hr (3600 * 2 ^ m) (90 * 2 ^ m * 60) hle
      simp only [Nat.succ_ne_zero, if_false, Nat.add_sub_cancel]
      constructor
      · exact this.1
      · calc randint (3600 * 2 ^ m) (90 * 2 ^ m * 60) ≤ 90 * 2 ^ m * 60 := this.2
          _ = 5400 * 2 ^ m := by ring

/-- Claim C7: for `n ≥ 1` the n-th consecutive rate-limit delay lies in the
band `60*2^(n-1)` to `90*2^(n-1)` minutes (`3600*2^(n-1)` to `5400*2^(n-1)`
seconds), and every delay possible at count `n+1` is strictly greater than
every delay possible at count `n` — the bands are disjoint and exponential. -/
theorem rate_limited_backoff_monotone (randint1 randint2 : ℤ → ℤ → ℤ)
    (hr1 : RandintSpec randint1) (hr2 : RandintSpec randint2)
    (n weekday1 hour1 weekday2 hour2 : Nat) (hn : 1 ≤ n) :
    3600 * 2 ^ (n - 1) ≤ get_roster_sleep_seconds randint1 "rate_limited" n weekday1 hour1 ∧
    get_roster_sleep_seconds randint1 "rate_limited" n weekday1 hour1 ≤ 5400 * 2 ^ (n - 1) ∧
    get_roster_sleep_seconds randint1 "rate_limited" n weekday1 hour1 <
      get_roster_sleep_seconds randint2 "rate_limited" (n + 1) weekday2 hour2 := by
  obtain ⟨m, rfl⟩ : ∃ m, n = m + 1 := ⟨n - 1, (Nat.succ_pred_eq_of_pos hn).symm⟩
  have b1 := rate_limited_bounds randint1 hr1 (m + 1) weekday1 hour1
  have b2 := rate_limited_bounds randint2 hr2 (m + 2) weekday2 hour2
  simp only [Nat.succ_ne_zero, if_false, Nat.add_sub_cancel] at b1 b2
  have hm2 : (m + 2) - 1 = m + 1 := rfl
  rw [hm2] at b2
  have hpow : (0 : ℤ) < 2 ^ m := pow_pos (by norm_num) m
  refine ⟨b1.1, b1.2, ?_⟩
  have hgap : (5400 : ℤ) * 2 ^ m < 3600 * 2 ^ (m + 1) := by
    have : (2 : ℤ) ^ (m + 1) = 2 * 2 ^ m := by ring
    rw [this]; nlinarith
  exact lt_of_le_of_lt b1.2 (lt_of_lt_of_le hgap b2.1)

/-- Witness for C7 at a concrete input. -/
theorem rate_limited_backoff_monotone_witness :
    3600 * 2 ^ (1 - 1) ≤ get_roster_sleep_seconds (fun a _ => a) "rate_limited" 1 0 0 ∧
    get_roster_sleep_seconds (fun a _ => a) "rate_limited" 1 0 0 ≤ 5400 * 2 ^ (1 - 1) ∧
    get_roster_sleep_seconds (fun a _ => a) "rate_limited" 1 0 0 <
      get_roster_sleep_seconds (fun a _ => a) "rate_limited" (1 + 1) 0 0 :=
  rate_limited_backoff_monotone (fun a _ => a) (fun a _ => a)
    (fun a _ h => ⟨le_refl a, h⟩) (fun a _ h => ⟨le_refl a, h⟩) 1 0 0 0 0 (le_refl 1)

/-- Claim C8: for every status, every consecutive-429 count and every clock
reading, `get_roster_sleep_seconds` returns a strictly positive duration;
the embedding takes the clock and the random draws as explicit arguments, so
the function is a pure function of them. -/
theorem get_roster_sleep_seconds_pos (randint : ℤ → ℤ → ℤ) (hr : RandintSpec randint)
    (status : String) (consecutive_429 weekday hour : Nat) :
    0 < get_roster_sleep_seconds randint status consecutive_429 weekday hour := by
  by_cases h1 : status = "rate_limited"
  · subst h1
    have hlo := (rate_limited_bounds randint hr consecutive_429 weekday hour).1
    refine lt_of_lt_of_le ?_ hlo
    cases consecutive_429 with
    | zero => norm_num
    | succ m =>
        simp only [Nat.succ_ne_zero, if_false, Nat.add_sub_cancel]
        positivity
  · by_cases h2 : status = "error"
    · subst h2
      have hval : get_roster_sleep_seconds randint "error" consecutive_429 weekday hour =
          randint (45 * 60) (60 * 60) := by
        simp [get_roster_sleep_seconds]
      rw [hval]
      have := (hr (45 * 60) (60 * 60) (by norm_num)).1
      linarith
    · have hbase : (0 : ℤ) <
          (if activeHours weekday hour then randint (19 * 60) (21 * 60)
           else randint (115 * 60) (125 * 60)) := by
        by_cases ha : activeHours weekday hour
        · rw [if_pos ha]
          have := (hr (19 * 60) (21 * 60) (by norm_num)).1
          linarith
        · rw [if_neg ha]
          have := (hr (115 * 60) (125 * 60) (by norm_num)).1
          linarith
      have hval : get_roster_sleep_seconds randint status consecutive_429 weekday hour =
          (let base_sleep : ℤ :=
            if activeHours weekday hour then randint (19 * 60) (21 * 60)
            else randint (115 * 60) (125 * 60)
           if status = "nochange" ∧ activeHours weekday hour = true then
             base_sleep + randint (10 * 60) (20 * 60)
           else base_sleep) := by
        simp [get_roster_sleep_seconds, h1, h2]
      rw [hval]
      simp only []
      by_cases h3 : status = "nochange" ∧ activeHours weekday hour = true
      · rw [if_pos h3]
        have := (hr (10 * 60) (20 * 60) (by norm_num)).1
        linarith
      · rw [if_neg h3]
        exact hbase

/-- Witness for C8 at a concrete input. -/
theorem get_roster_sleep_seconds_pos_witness :
    0 < get_roster_sleep_seconds (fun a _ => a) "edited" 0 0 0 :=
  get_roster_sleep_seconds_pos (fun a _ => a) (fun a _ h => ⟨le_refl a, h⟩) "edited" 0 0 0

/-- A message seen while scanning the roster channel's recent history:
its author's id, its message id and its content. -/
structure HistMsg where
  authorId : Nat
  id : Nat
  content : String
deriving DecidableEq, Repr

/-- Outcome of `partial.fetch()` validating the stored message id:
success, `discord.NotFound`, another `HTTPException`, or a non-HTTP
exception (which propagates out of `bootstrap_roster_message`). -/
inductive FetchRes where
  | ok
  | notFound
  | httpE
  | exc
deriving DecidableEq, Repr

/-- Environment for one `bootstrap_roster_message` run: channel lookup
result, the stored-id validation outcome, the bot's own user id, and the
channel history scan (`Except.error` when `channel.history` raises). -/
structure BootEnv where
  channelFound : Bool
  fetchRes : FetchRes
  selfId : Nat
  history : Except Unit (List HistMsg)

/-- The two `marker_prefixes` of `bootstrap_roster_message` (lines 184-187). -/
def rosterMarkers : List String :=
  ["📋 **THM Volleyball Roster - Sunday,", "🚫 Sunday volleyball is CANCELLED -"]

/-- `any(m.content.startswith(p) for p in marker_prefixes)`. -/
def isRosterMarker (content : String) : Bool :=
  rosterMarkers.any (fun p => content.startsWith p)

/-- The history-scan block of `bootstrap_roster_message` (lines 188-197):
walk the latest messages (`limit=5`), and at the first one authored by the
bot whose content starts with a marker, `save_message_id(m.id)` and
`save_cached_roster_text(m.content)`; otherwise, or when the scan raises,
leave the state unchanged. -/
def scanHistory (st : RosterState) (env : BootEnv) : RosterState :=
  match env.history with
  | Except.error _ => st
  | Except.ok msgs =>
      match (msgs.take 5).find?
          (fun m => m.authorId == env.selfId && isRosterMarker m.content) with
      | some m => ⟨some m.id, m.content⟩
      | none => st

/-- `discord_bot.bootstrap_roster_message` (lines 155-197).  Returns the
persisted state afterwards together with the mutating transport calls made
(there are none: the function only reads the channel and writes local
files).  A stored id that validates is kept; `NotFound` or another
`HTTPException` during validation falls through to the history scan; a
non-HTTP exception propagates with nothing changed; with no stored id the
scan runs directly. -/
def bootstrap_roster_message (st : RosterState) (env : BootEnv) :
    RosterState × List Call :=
  if env.channelFound = false then (st, [])
  else
    match st.msgId with
    | some _ =>
        match env.fetchRes with
        | FetchRes.ok => (st, [])
        | FetchRes.notFound => (scanHistory st env, [])
        | FetchRes.httpE => (scanHistory st env, [])
        | FetchRes.exc => (st, [])
    | none => (scanHistory st env, [])

/-- Helper: the history scan either leaves the state unchanged or adopts a
message found in the scanned window that the bot authored and that carries a
roster marker. -/
theorem scanHistory_cases (st : RosterState) (env : BootEnv) :
    scanHistory st env = st ∨
    ∃ msgs m, env.history = Except.ok msgs ∧ m ∈ msgs.take 5 ∧
      m.authorId = env.selfId ∧ isRosterMarker m.content = true ∧
      scanHistory st env = ⟨some m.id, m.content⟩ := by
  unfold scanHistory
  cases henv : env.history with
  | error e => exact Or.inl rfl
  | ok msgs =>
      cases hf : (msgs.take 5).find?
          (fun m => m.authorId == env.selfId && isRosterMarker m.content) with
      | none => exact Or.inl (by simp [hf])
      | some m =>
          right
          have hmem := List.mem_of_find?_eq_some hf
          have hpred := List.find?_some hf
          simp only [Bool.and_eq_true, beq_iff_eq] at hpred
          exact ⟨msgs, m, rfl, hmem, hpred.1, hpred.2, by simp [hf]⟩

/-- Claim C9: `bootstrap_roster_message` makes no mutating transport call
(never creates or posts a message), and its persisted-state effect is either
none or adopting a discovered roster message's id and content; in particular,
when nothing is found the state is unchanged. -/
theorem bootstrap_no_post_adopt_only (st : RosterState) (env : BootEnv) :
    (bootstrap_roster_message st env).2 = [] ∧
    ((bootstrap_roster_message st env).1 = st ∨
     ∃ msgs m, env.history = Except.ok msgs ∧ m ∈ msgs.take 5 ∧
       m.authorId = env.selfId ∧ isRosterMarker m.content = true ∧
       (bootstrap_roster_message st env).1 = ⟨some m.id, m.content⟩) := by
  unfold bootstrap_roster_message
  constructor
  · repeat' split
    all_goals rfl
  · split
    · exact Or.inl rfl
    · have hscan := scanHistory_cases st env
      cases hm : st.msgId with
      | some mid =>
          cases hf : env.fetchRes
          · exact Or.inl rfl
          · exact hscan
          · exact hscan
          · exact Or.inl rfl
      | none => exact hscan

/-- One per-week cancellation record in `cancel_state.json`. -/
structure CancelRecord where
  is_cancelled : Bool
  reason : String
  cancelled_by : String
  timestamp : String
deriving DecidableEq, Repr

/-- The default record `load_cancel_state` installs for a fresh week
(lines 65-72). -/
def defaultCancelState : CancelRecord := ⟨false, "", "", ""⟩

/-- `utils.load_cancel_state` (lines 61-74).  `sunday` is the target week's
ISO date; `file` is the parsed JSON object (`[]` when the file is missing or
corrupt, the `load_json_file` default `{}`).  If the key is present, return
its record with the file untouched; otherwise replace the whole mapping by a
singleton with the default record, save it, and return the default. -/
def load_cancel_state (sunday : String) (file : List (String × CancelRecord)) :
    CancelRecord × List (String × CancelRecord) :=
  match file.lookup sunday with
  | some r => (r, file)
  | none => (defaultCancelState, [(sunday, defaultCancelState)])

/-- `utils.save_cancel_state` (lines 76-79): write `{sunday: state}`,
discarding every other key. -/
def save_cancel_state (sunday : String) (state : CancelRecord) :
    List (String × CancelRecord) :=
  [(sunday, state)]

/-- Claim C10: after `save_cancel_state`, and after `load_cancel_state` from
any file these functions can have produced (at most one entry), the persisted
mapping's keys are exactly the current target week's date; and the first time
a week is addressed, `load_cancel_state` returns and persists the default
record. -/
theorem cancel_state_single_week (sunday : String) (state : CancelRecord)
    (file : List (String × CancelRecord)) (hfile : file.length ≤ 1) :
    (save_cancel_state sunday state).map Prod.fst = [sunday] ∧
    ((load_cancel_state sunday file).2).map Prod.fst = [sunday] ∧
    (file.lookup sunday = none →
      load_cancel_state sunday file = (defaultCancelState, [(sunday, defaultCancelState)])) := by
  refine ⟨rfl, ?_, ?_⟩
  · cases file with
    | nil => simp [load_cancel_state]
    | cons hd tl =>
        have htl : tl = [] := by
          cases tl with
          | nil => rfl
          | cons a b => simp at hfile
        subst htl
        obtain ⟨k, v⟩ := hd
        by_cases hk : sunday = k
        · subst hk
          simp [load_cancel_state, List.lookup]
        · have hbeq : (sunday == k) = false := beq_false_of_ne hk
          simp [load_cancel_state, List.lookup, hbeq]
  · intro hnone
    simp [load_cancel_state, hnone]

/-- Witness for C10 at a concrete input. -/
theorem cancel_state_single_week_witness :
    ((load_cancel_state "2026-10-18" []).2).map Prod.fst = ["2026-10-18"] ∧
    load_cancel_state "2026-10-18" [] =
      (defaultCancelState, [("2026-10-18", defaultCancelState)]) :=
  ⟨(cancel_state_single_week "2026-10-18" defaultCancelState [] (by decide)).2.1,
   (cancel_state_single_week "2026-10-18" defaultCancelState [] (by decide)).2.2 rfl⟩
